import Mathlib

/-!
Verification development for the openfort-react repository slice described in
its design specification: the client registry
(`src/packages/openfort-react/src/openfort/core/client.ts`), the email
verification flow
(`src/packages/openfort-react/src/components/Pages/EmailVerification/index.tsx`),
the default transport helper
(`src/packages/openfort-react/src/components/Openfort/types.ts`), and the
`useConnect` error filter (`src/hooks/useConnect.tsx`).

The TypeScript code is shallowly embedded: browser/JS primitives that the code
uses (first-occurrence string replacement, `URL`/`URLSearchParams` parsing and
serialisation with application/x-www-form-urlencoded percent-encoding, JS
string truthiness) are modelled below as executable Lean functions, and each
component is a pure function from its inputs (URL, local storage, SDK call
outcomes) to an explicit trace of side effects plus resulting component state.
-/

/-! ## JS string primitives -/

/-- Splits a character list at every occurrence of `sep`; `acc` holds the
current segment reversed.  Mirrors the segmentation JS performs when a query
string is split on a separator character. -/
def splitCharAux (sep : Char) : List Char → List Char → List (List Char)
  | [], acc => [acc.reverse]
  | c :: rest, acc =>
    if c = sep then acc.reverse :: splitCharAux sep rest []
    else splitCharAux sep rest (c :: acc)

/-- Splits a string at every occurrence of the character `sep`. -/
def splitOnChar (sep : Char) (s : String) : List String :=
  (splitCharAux sep s.data []).map String.mk

/-- Joins strings with separator `sep` (inverse of `splitOnChar`). -/
def joinWith (sep : String) : List String → String
  | [] => ""
  | [x] => x
  | x :: y :: rest => x ++ sep ++ joinWith sep (y :: rest)

/-- `leadsWith pat l` is true when `pat` occurs at the head of `l`. -/
def leadsWith : List Char → List Char → Bool
  | [], _ => true
  | _ :: _, [] => false
  | p :: ps, c :: cs => p == c && leadsWith ps cs

/-- Replaces the first occurrence of `pat` in the list by `repl`, leaving the
input unchanged when `pat` does not occur. -/
def replaceFirstAux (pat repl : List Char) : List Char → List Char
  | [] => []
  | c :: rest =>
    if leadsWith pat (c :: rest) then repl ++ (c :: rest).drop pat.length
    else c :: replaceFirstAux pat repl rest

/-- JavaScript `String.prototype.replace` with a plain-string pattern: only the
first occurrence is replaced.  (Lean's `String.replace` replaces all
occurrences, so the JS behaviour is modelled explicitly.) -/
def replaceFirst (s pat repl : String) : String :=
  String.mk (replaceFirstAux pat.data repl.data s.data)

/-- JS truthiness of a string: every string except `""` is truthy. -/
def jsTruthyStr (s : String) : Bool := s != ""

/-- JS truthiness of a `string | null | undefined` value. -/
def jsTruthy : Option String → Bool
  | none => false
  | some s => jsTruthyStr s

/-! ## Percent-encoding (application/x-www-form-urlencoded)

`URLSearchParams` serialisation keeps alphanumerics and `* - . _`, turns a
space into `+`, and percent-encodes the UTF-8 bytes of every other
character. -/

/-- Uppercase hexadecimal digit for `n < 16`. -/
def hexDigitChar (n : Nat) : Char :=
  if n < 10 then Char.ofNat (48 + n) else Char.ofNat (55 + n)

/-- Value of a hexadecimal digit character, if it is one. -/
def hexCharVal (c : Char) : Option Nat :=
  if 48 ≤ c.toNat ∧ c.toNat ≤ 57 then some (c.toNat - 48)
  else if 65 ≤ c.toNat ∧ c.toNat ≤ 70 then some (c.toNat - 55)
  else if 97 ≤ c.toNat ∧ c.toNat ≤ 102 then some (c.toNat - 87)
  else none

/-- Characters the form-urlencoded serialiser leaves unescaped. -/
def isUrlSafeChar (c : Char) : Bool :=
  c.isAlphanum || c == '-' || c == '.' || c == '_' || c == '*'

/-- UTF-8 byte sequence of a character. -/
def utf8Bytes (c : Char) : List Nat :=
  let n := c.toNat
  if n < 128 then [n]
  else if n < 2048 then [192 + n / 64, 128 + n % 64]
  else if n < 65536 then [224 + n / 4096, 128 + n / 64 % 64, 128 + n % 64]
  else [240 + n / 262144, 128 + n / 4096 % 64, 128 + n / 64 % 64, 128 + n % 64]

/-- `%XX` escape for one byte. -/
def percentEncodeByte (b : Nat) : String :=
  String.mk ['%', hexDigitChar (b / 16 % 16), hexDigitChar (b % 16)]

/-- Encoding of a single character under form-urlencoded rules. -/
def encodeChar (c : Char) : String :=
  if isUrlSafeChar c then String.mk [c]
  else if c == ' ' then "+"
  else String.join ((utf8Bytes c).map percentEncodeByte)

/-- form-urlencoded encoding of a string (as `URLSearchParams` serialises
keys and values). -/
def urlEncode (s : String) : String := String.join (s.data.map encodeChar)

/-- form-urlencoded decoding: `+` becomes a space and `%XX` becomes the byte
`XX`; a `%` not followed by two hex digits is kept literally.  Each decoded
byte is mapped directly to the character with that code, which coincides with
the browser behaviour on ASCII data (the only data this flow produces). -/
def urlDecodeGo : Nat → List Char → List Char
  | 0, _ => []
  | _ + 1, [] => []
  | fuel + 1, c :: rest =>
    if c = '+' then ' ' :: urlDecodeGo fuel rest
    else if c = '%' then
      match rest with
      | h :: l :: rest2 =>
        match hexCharVal h, hexCharVal l with
        | some a, some b => Char.ofNat (16 * a + b) :: urlDecodeGo fuel rest2
        | _, _ => '%' :: urlDecodeGo fuel rest
      | _ => '%' :: urlDecodeGo fuel rest
    else c :: urlDecodeGo fuel rest

/-- form-urlencoded decoding of a string.  The fuel argument of `urlDecodeGo`
starts at the input length and at least one character is consumed per step, so
the fuel never runs out. -/
def urlDecode (s : String) : String := String.mk (urlDecodeGo s.data.length s.data)

/-! ## URL model

A `Url` is the part of a browser `URL` object the verification flow uses: the
text before the first `?` (origin plus pathname) and the decoded
`searchParams` list. -/

/-- Model of a JS `URL`: everything before the first `?`, plus the decoded
query-parameter list in order. -/
structure Url where
  base : String
  params : List (String × String)
  deriving DecidableEq, Repr

/-- Key/value of one `k=v` query segment (split at the first `=`; a segment
with no `=` gets the empty value), with form-urlencoded decoding applied. -/
def parsePair (p : String) : String × String :=
  match splitOnChar '=' p with
  | [] => ("", "")
  | k :: rest => (urlDecode k, urlDecode (joinWith "=" rest))

/-- Parses a query string into parameters, skipping empty `&` segments as
`URLSearchParams` does. -/
def parseQuery (q : String) : List (String × String) :=
  ((splitOnChar '&' q).filter (fun p => p != "")).map parsePair

/-- `new URL(href)` restricted to the fields the flow reads: the text up to
the first `?` and the query parameters after it.  A `?` occurring later in the
query is an ordinary character of a value, exactly as in the browser. -/
def parseUrl (href : String) : Url :=
  match splitOnChar '?' href with
  | [] => { base := href, params := [] }
  | base :: rest => { base := base, params := parseQuery (joinWith "?" rest) }

/-- `url.searchParams.get(k)`: decoded value of the first parameter named
`k`, or `null`. -/
def Url.getParam (u : Url) (k : String) : Option String :=
  (u.params.find? (fun p => p.1 == k)).map (fun p => p.2)

/-- `url.searchParams.delete(k)`: removes every parameter named `k`. -/
def Url.delParam (u : Url) (k : String) : Url :=
  { u with params := u.params.filter (fun p => p.1 != k) }

/-- Sequential `searchParams.delete` over a list of keys (the `forEach` in
`removeParams`). -/
def Url.delParams (u : Url) (ks : List String) : Url := ks.foldl Url.delParam u

/-- `URLSearchParams.toString()`: form-urlencoded `k=v` pairs joined by `&`,
preceded by `?` when non-empty (as `URL.toString()` renders it). -/
def serializeParams : List (String × String) → String
  | [] => ""
  | ps => "?" ++ joinWith "&" (ps.map (fun p => urlEncode p.1 ++ "=" ++ urlEncode p.2))

/-- `url.toString()` for the modelled fields. -/
def Url.render (u : Url) : String := u.base ++ serializeParams u.params

/-! ## Client registry (`src/openfort/core/client.ts`)

Client instances are modelled with an allocation counter: `new OpenfortClient(config)`
produces a fresh instance identity, so "same instance" is equality of
`instId`.  The module-scoped `defaultClient` variable together with the
allocation counter forms the explicit `RegistryState`. -/

/-- Configuration passed to the SDK constructor (opaque to this slice). -/
def OpenfortSDKConfiguration : Type := Nat

instance : DecidableEq OpenfortSDKConfiguration := fun a b => Nat.decEq a b

instance : Repr OpenfortSDKConfiguration := inferInstanceAs (Repr Nat)

instance : OfNat OpenfortSDKConfiguration n := ⟨n⟩

/-- A constructed SDK client: its allocation identity and the configuration it
was built with. -/
structure OpenfortClient where
  instId : Nat
  config : OpenfortSDKConfiguration
  deriving DecidableEq, Repr

/-- Module state of `client.ts`: the `defaultClient` variable plus the
allocation counter that makes instance identity explicit. -/
structure RegistryState where
  defaultClient : Option OpenfortClient
  nextInstId : Nat
  deriving DecidableEq, Repr

/-- State at module load: `defaultClient = null`. -/
def initialRegistry : RegistryState := { defaultClient := none, nextInstId := 0 }

/-- `new OpenfortClient(config)`: allocates a fresh instance. -/
def newClientInstance (config : OpenfortSDKConfiguration) (s : RegistryState) :
    OpenfortClient × RegistryState :=
  ({ instId := s.nextInstId, config := config }, { s with nextInstId := s.nextInstId + 1 })

/-- `createOpenfortClient(config)`: always constructs and returns a new
instance; never touches `defaultClient`. -/
def createOpenfortClient (config : OpenfortSDKConfiguration) (s : RegistryState) :
    OpenfortClient × RegistryState :=
  newClientInstance config s

/-- Error message thrown by `getDefaultClient` when uninitialised. -/
def uninitializedMsg : String :=
  "Openfort client not initialized. Make sure to wrap your app with OpenfortProvider."

/-- `getDefaultClient(options?)`: when `defaultClient` is unset and options are
given, constructs and stores the client; then either throws the uninitialised
error or returns the stored client.  The returned pair carries the outcome and
the module state after the call (also on throw). -/
def getDefaultClient (options : Option OpenfortSDKConfiguration) (s : RegistryState) :
    Except String OpenfortClient × RegistryState :=
  let s1 :=
    match s.defaultClient, options with
    | none, some cfg =>
      let (c, s2) := newClientInstance cfg s
      { s2 with defaultClient := some c }
    | _, _ => s
  match s1.defaultClient with
  | none => (Except.error uninitializedMsg, s1)
  | some c => (Except.ok c, s1)

/-- `setDefaultClient(client)`: unconditionally replaces `defaultClient`. -/
def setDefaultClient (client : OpenfortClient) (s : RegistryState) : RegistryState :=
  { s with defaultClient := some client }

/-! ## Email verification flow (`src/components/Pages/EmailVerification/index.tsx`)

The component's two effects are modelled as pure functions from an explicit
input record to a `FlowResult`: the ordered trace of external side effects
plus the final values of the component's state hooks.  The first (mount)
effect runs to completion first; a state update of
`shouldSendEmailVerification` then triggers the second effect, whose events
are appended after the first effect's events. -/

/-! Route identifiers from `components/Openfort/types.ts` used by this flow. -/

namespace routes

def EMAIL_LOGIN : String := "emailLogin"

end routes

/-- The generic failure message shown when `verifyEmail` rejects. -/
def verifyErrorMsg : String :=
  "There was an error verifying your email. Please try again."

/-- One observable side effect of the component, in program order. -/
inductive Ev where
  /-- `setRoute(r)` -/
  | setRoute (r : String)
  /-- `log(msg, payload?)` via the Openfort context logger -/
  | logged (msg : String) (payload : Option String)
  /-- `console.error(msg)` -/
  | consoleErrored (msg : String)
  /-- `localStorage.removeItem(emailToVerifyLocalStorageKey)` -/
  | removedStorageKey
  /-- `client.auth.requestEmailVerification({ email, redirectUrl })` -/
  | sdkRequestVerification (email : String) (redirectUrl : String)
  /-- `client.auth.verifyEmail({ email, state })` -/
  | sdkVerifyEmail (email : String) (state : String)
  /-- `window.history.replaceState({}, title, url)` -/
  | historyReplaced (url : String)
  deriving DecidableEq, Repr

/-- The component's `VerificationResponse` state. -/
structure VerificationResponse where
  success : Bool
  error : Option String
  deriving DecidableEq, Repr

/-- Inputs of one mount of the `EmailVerification` component: the browser
location, the persisted email, and the outcomes of the two SDK promises (an
`Except.error` value carries the rejection's message). -/
structure FlowInput where
  href : String
  origin : String
  pathname : String
  emailInStorage : Option String
  requestOutcome : Except String Unit
  verifyOutcome : Except String Unit

/-- Result of the mount: event trace plus final hook state
(`loading`, `shouldSendEmailVerification`, `verificationResponse`). -/
structure FlowResult where
  events : List Ev
  loading : Bool
  shouldSend : Option String
  response : Option VerificationResponse
  deriving DecidableEq, Repr

/-- The URL object the mount effect works on:
`new URL(window.location.href.replace("?state=", "&state="))`. -/
def flowUrl (inp : FlowInput) : Url :=
  parseUrl (replaceFirst inp.href "?state=" "&state=")

/-- The mount effect (the `useEffect(..., [])` body of `EmailVerification`). -/
def mainEffect (inp : FlowInput) : FlowResult :=
  let url := flowUrl inp
  match jsTruthy (url.getParam "openfortEmailVerificationUI") with
  | false =>
    -- send email verification flow
    match jsTruthy inp.emailInStorage with
    | false =>
      { events := [Ev.setRoute routes.EMAIL_LOGIN], loading := true,
        shouldSend := none, response := none }
    | true =>
      { events := [Ev.removedStorageKey], loading := false,
        shouldSend := inp.emailInStorage, response := none }
  | true =>
    -- verify email flow
    let stateOpt := url.getParam "state"
    let emailOpt := url.getParam "email"
    match jsTruthy stateOpt with
    | false =>
      { events := [Ev.consoleErrored "No state found in URL"], loading := true,
        shouldSend := none, response := none }
    | true =>
      match jsTruthy emailOpt with
      | false =>
        { events := [Ev.setRoute routes.EMAIL_LOGIN], loading := true,
          shouldSend := none, response := none }
      | true =>
        let s := stateOpt.getD ""
        let e := emailOpt.getD ""
        let strippedUrl :=
          (url.delParams ["state", "openfortEmailVerificationUI", "email"]).render
        match inp.verifyOutcome with
        | Except.ok _ =>
          { events := [Ev.logged "EmailVerification" (some (s ++ " " ++ e)),
                       Ev.sdkVerifyEmail e s,
                       Ev.historyReplaced strippedUrl],
            loading := false, shouldSend := none,
            response := some { success := true, error := none } }
        | Except.error err =>
          { events := [Ev.logged "EmailVerification" (some (s ++ " " ++ e)),
                       Ev.sdkVerifyEmail e s,
                       Ev.logged "Error verifying email" (some err),
                       Ev.historyReplaced strippedUrl],
            loading := false, shouldSend := none,
            response := some { success := false, error := some verifyErrorMsg } }

/-- The `sendEmailVerification` helper: guards against a falsy email, builds
the redirect URL from origin+pathname plus the flag and email parameters, and
issues the SDK request, logging a rejection. -/
def sendEmailVerification (inp : FlowInput) (email : String) : List Ev :=
  match jsTruthyStr email with
  | false => [Ev.logged "No linked account found" none]
  | true =>
    let redirectUrl : Url :=
      { base := inp.origin ++ inp.pathname,
        params := [("openfortEmailVerificationUI", "true"), ("email", email)] }
    let callEv := Ev.sdkRequestVerification email redirectUrl.render
    match inp.requestOutcome with
    | Except.ok _ => [callEv]
    | Except.error err => [callEv, Ev.logged "Error requesting email verification" (some err)]

/-- One full mount of the component: the mount effect, then (if the
`shouldSendEmailVerification` state was set to a truthy value) the second
effect running `sendEmailVerification`, its events appended after the mount
effect's. -/
def runFlow (inp : FlowInput) : FlowResult :=
  let r := mainEffect inp
  match jsTruthy r.shouldSend with
  | true => { r with events := r.events ++ sendEmailVerification inp (r.shouldSend.getD "") }
  | false => r

/-- What the component renders for a given final state. -/
inductive Screen where
  /-- loading spinner (`CHECKING`) -/
  | checking
  /-- terminal success/failure screen (`DONE`) -/
  | done (resp : VerificationResponse)
  /-- "Please check your email" screen (`AWAITING_USER_CHECK`) -/
  | awaitingUserCheck (email : Option String)
  deriving DecidableEq, Repr

/-- Render function of the component: loading wins, then a set
`verificationResponse` renders the terminal screen, otherwise the
check-your-email screen shows `emailInStorage`. -/
def renderScreen (inp : FlowInput) (r : FlowResult) : Screen :=
  match r.loading with
  | true => Screen.checking
  | false =>
    match r.response with
    | some v => Screen.done v
    | none => Screen.awaitingUserCheck inp.emailInStorage

/-- The `setRoute` calls of a trace, in order. -/
def routeCalls (r : FlowResult) : List String :=
  r.events.filterMap (fun e =>
    match e with
    | Ev.setRoute s => some s
    | _ => none)

/-- Whether an event is one of the two SDK calls. -/
def isSdkCall : Ev → Bool
  | Ev.sdkRequestVerification _ _ => true
  | Ev.sdkVerifyEmail _ _ => true
  | _ => false

/-- The SDK calls of a trace, in order. -/
def sdkCalls (r : FlowResult) : List Ev := r.events.filter isSdkCall

/-- The URLs written by `history.replaceState`, in order. -/
def historyWrites (r : FlowResult) : List String :=
  r.events.filterMap (fun e =>
    match e with
    | Ev.historyReplaced u => some u
    | _ => none)

/-- Whether the trace removes the persisted email key. -/
def removesStorage (r : FlowResult) : Bool :=
  r.events.any (fun e =>
    match e with
    | Ev.removedStorageKey => true
    | _ => false)

/-! ## Default transports (`src/components/Openfort/types.ts`)

`chainConfigs` is imported by `types.ts` from `./constants/chainConfigs`,
a static table keyed by chain id whose entries optionally carry Alchemy/Infura
http or webSocket URL stems.  The table's contents are not part of this slice,
so the helpers below take the table as an explicit argument with the record
shape the code accesses (`c.id`, `c.rpcUrls?.alchemy?.http`, ...). -/

/-- URL stems of one provider entry of a chain config
(`{ http?, webSocket? }`). -/
structure ProviderUrls where
  http : Option String
  webSocket : Option String
  deriving DecidableEq, Repr

/-- The `rpcUrls` record of a chain config (`{ alchemy?, infura? }`). -/
structure RpcUrls where
  alchemy : Option ProviderUrls
  infura : Option ProviderUrls
  deriving DecidableEq, Repr

/-- One entry of the static `chainConfigs` table. -/
structure ChainConfig where
  id : Nat
  rpcUrls : Option RpcUrls
  deriving DecidableEq, Repr

/-- A viem transport value as built by `createTransport`:
`http(url)`, `webSocket(url)`, or the unauthenticated public `http()`. -/
inductive Transport where
  | httpUrl (url : String)
  | wsUrl (url : String)
  | publicHttp
  deriving DecidableEq, Repr

/-- The provider argument of `createTransport`. -/
inductive Provider where
  | alchemy
  | infura
  | publicProvider
  deriving DecidableEq, Repr

/-- JS string conversion of a possibly-undefined string, as it happens in
`webSocket(urls?.webSocket + apiKey)`: `undefined` concatenates as the text
`"undefined"`. -/
def jsStringOrUndefined : Option String → String
  | some s => s
  | none => "undefined"

/-- JS truthiness of `urls?.http` where `urls` itself may be undefined. -/
def jsTruthyField (o : Option ProviderUrls) : Bool :=
  jsTruthy (o.bind (fun u => u.http))

/-- `createTransport({chain, provider, apiKey})`: looks the chain up in the
table; with a present entry carrying `rpcUrls`, an Alchemy/Infura provider
gets `http(stem + apiKey)` when the http stem is truthy and otherwise
`webSocket(stem + apiKey)`; every other case is the public `http()`. -/
def createTransport (chainConfigs : List ChainConfig) (chainId : Nat)
    (provider : Provider) (apiKey : String) : Transport :=
  match (chainConfigs.find? (fun c => c.id == chainId)).bind (fun c => c.rpcUrls) with
  | some ru =>
    match provider with
    | Provider.alchemy =>
      match jsTruthyField ru.alchemy with
      | true => Transport.httpUrl (jsStringOrUndefined (ru.alchemy.bind (fun u => u.http)) ++ apiKey)
      | false => Transport.wsUrl (jsStringOrUndefined (ru.alchemy.bind (fun u => u.webSocket)) ++ apiKey)
    | Provider.infura =>
      match jsTruthyField ru.infura with
      | true => Transport.httpUrl (jsStringOrUndefined (ru.infura.bind (fun u => u.http)) ++ apiKey)
      | false => Transport.wsUrl (jsStringOrUndefined (ru.infura.bind (fun u => u.webSocket)) ++ apiKey)
    | Provider.publicProvider => Transport.publicHttp
  | none => Transport.publicHttp

/-- Assignment `obj[k] = v` on a JS object modelled as an association list:
replaces the value of an existing key in place, otherwise appends the new key
at the end (JS objects keep insertion order). -/
def jsSet : List (Nat × List Transport) → Nat → List Transport → List (Nat × List Transport)
  | [], k, v => [(k, v)]
  | p :: rest, k, v => if p.1 = k then (k, v) :: rest else p :: jsSet rest k v

/-- Property read `obj[k]` on the modelled JS object. -/
def jsLookup : List (Nat × List Transport) → Nat → Option (List Transport)
  | [], _ => none
  | p :: rest, k => if p.1 = k then some p.2 else jsLookup rest k

/-- The fallback list `getDefaultTransports` builds for one chain: an Alchemy
transport when `alchemyId` is truthy, then an Infura transport when
`infuraId` is truthy, then always the public `http()`. -/
def transportUrlsFor (chainConfigs : List ChainConfig) (alchemyId infuraId : Option String)
    (chainId : Nat) : List Transport :=
  (match jsTruthy alchemyId with
   | true => [createTransport chainConfigs chainId Provider.alchemy (alchemyId.getD "")]
   | false => []) ++
  (match jsTruthy infuraId with
   | true => [createTransport chainConfigs chainId Provider.infura (infuraId.getD "")]
   | false => []) ++
  [Transport.publicHttp]

/-- `getDefaultTransports({chains, alchemyId, infuraId})`: per chain, in
order, assigns `transports[chain.id] = fallback(urls)`; the fallback list is
kept as the ordered list of its transports.  Chains are represented by their
ids (the only field the function reads). -/
def getDefaultTransports (chainConfigs : List ChainConfig) (chains : List Nat)
    (alchemyId infuraId : Option String) : List (Nat × List Transport) :=
  chains.foldl (fun m cid => jsSet m cid (transportUrlsFor chainConfigs alchemyId infuraId cid)) []

/-! ## useConnect error filter (`src/hooks/useConnect.tsx`) -/

/-- A connection error delivered to the `onError` handler: its `message`
(possibly absent or empty) plus an opaque identity for the error object. -/
structure ConnErr where
  message : Option String
  errId : Nat
  deriving DecidableEq, Repr

/-- The `onError` handler of the wagmi mutation configured by `useConnect`:
returns the `context.log` calls it makes, each a logged text paired with the
error object passed along. -/
def onConnectError (err : ConnErr) : List (String × ConnErr) :=
  match jsTruthy err.message with
  | true =>
    match err.message.getD "" != "User rejected request" with
    | true => [(err.message.getD "", err)]
    | false => []
  | false => [("Could not connect.", err)]

/-! ## Theorems -/

/-- If the singleton holds `c`, `getDefaultClient` returns `c` and leaves the
state untouched, whatever the options. -/
theorem getDefaultClient_of_set (c : OpenfortClient) (s : RegistryState)
    (h : s.defaultClient = some c) (opts : Option OpenfortSDKConfiguration) :
    getDefaultClient opts s = (Except.ok c, s) := by
  cases opts <;> simp [getDefaultClient, h]

/-- C1: with the singleton unset, `getDefaultClient` called with a config
constructs, stores and returns a fresh instance, every later call (with or
without a config) returns that same instance, and calling it with no config
while unset throws the uninitialised error (whose message names the required
setup step) leaving the singleton unset. -/
theorem registry_getOrInit_correct (cfg : OpenfortSDKConfiguration) (s : RegistryState)
    (h : s.defaultClient = none) :
    ∃ c s1,
      getDefaultClient (some cfg) s = (Except.ok c, s1) ∧
      c = { instId := s.nextInstId, config := cfg } ∧
      s1 = { defaultClient := some c, nextInstId := s.nextInstId + 1 } ∧
      (∀ opts, getDefaultClient opts s1 = (Except.ok c, s1)) ∧
      getDefaultClient none s = (Except.error uninitializedMsg, s) ∧
      (getDefaultClient none s).2.defaultClient = none := by
  refine ⟨{ instId := s.nextInstId, config := cfg },
    { defaultClient := some { instId := s.nextInstId, config := cfg },
      nextInstId := s.nextInstId + 1 }, ?_, rfl, rfl, ?_, ?_, ?_⟩
  · simp [getDefaultClient, newClientInstance, h]
  · intro opts
    exact getDefaultClient_of_set _ _ rfl opts
  · simp [getDefaultClient, h]
  · simp [getDefaultClient, h]

/-- C1 witness: evaluation at the module-load state with a concrete config. -/
theorem registry_getOrInit_correct_witness :
    ∃ c s1,
      getDefaultClient (some 0) initialRegistry = (Except.ok c, s1) ∧
      c = { instId := initialRegistry.nextInstId, config := 0 } ∧
      s1 = { defaultClient := some c, nextInstId := initialRegistry.nextInstId + 1 } ∧
      (∀ opts, getDefaultClient opts s1 = (Except.ok c, s1)) ∧
      getDefaultClient none initialRegistry = (Except.error uninitializedMsg, initialRegistry) ∧
      (getDefaultClient none initialRegistry).2.defaultClient = none :=
  registry_getOrInit_correct 0 initialRegistry rfl

/-- C3: `setDefaultClient c` followed by `getDefaultClient (some cfg)` returns
exactly `c` for every handle and config, leaves the state untouched, and in
particular allocates no new instance. -/
theorem registry_set_then_get (c : OpenfortClient) (cfg : OpenfortSDKConfiguration)
    (s : RegistryState) :
    getDefaultClient (some cfg) (setDefaultClient c s) = (Except.ok c, setDefaultClient c s) ∧
    (getDefaultClient (some cfg) (setDefaultClient c s)).2.nextInstId = s.nextInstId := by
  constructor <;> simp [getDefaultClient, setDefaultClient]

/-- C9: whenever `getDefaultClient` returns successfully, the singleton equals
the returned instance and every subsequent `getDefaultClient` call (with or
without a config) returns the same instance without changing the state; and
`createOpenfortClient` never touches the singleton. -/
theorem registry_invariant :
    (∀ opts s c s1, getDefaultClient opts s = (Except.ok c, s1) →
      s1.defaultClient = some c ∧
      ∀ opts2, getDefaultClient opts2 s1 = (Except.ok c, s1)) ∧
    (∀ cfg s, ((createOpenfortClient cfg s).2).defaultClient = s.defaultClient) := by
  constructor
  · intro opts s c s1 h
    rcases hd : s.defaultClient with _ | c0
    · rcases opts with _ | cfg
      · simp [getDefaultClient, hd] at h
      · simp [getDefaultClient, newClientInstance, hd] at h
        rcases h with ⟨h1, h2⟩
        subst h1
        subst h2
        exact ⟨rfl, fun opts2 => getDefaultClient_of_set _ _ rfl opts2⟩
    · rw [getDefaultClient_of_set c0 s hd opts] at h
      simp at h
      rcases h with ⟨h1, h2⟩
      subst h1
      subst h2
      exact ⟨hd, fun opts2 => getDefaultClient_of_set _ _ hd opts2⟩
  · intro cfg s
    rfl

/-- C9 witness: the invariant evaluated after a successful first
initialisation from the module-load state. -/
theorem registry_invariant_witness :
    getDefaultClient none { defaultClient := some { instId := 0, config := 0 }, nextInstId := 1 } =
      (Except.ok { instId := 0, config := 0 },
       { defaultClient := some { instId := 0, config := 0 }, nextInstId := 1 }) :=
  (registry_invariant.1 (some 0) initialRegistry { instId := 0, config := 0 }
    { defaultClient := some { instId := 0, config := 0 }, nextInstId := 1 } rfl).2 none

/-- C10: the `useConnect` `onError` handler logs nothing when the message is
exactly "User rejected request", logs the message and the error for any other
non-empty message, and logs "Could not connect." and the error when the
message is empty or absent. -/
theorem useConnect_onError_filter (err : ConnErr) :
    onConnectError err =
      match err.message with
      | some m =>
        if m = "User rejected request" then []
        else if m = "" then [("Could not connect.", err)]
        else [(m, err)]
      | none => [("Could not connect.", err)] := by
  rcases hm : err.message with _ | m
  · simp [onConnectError, hm, jsTruthy]
  · by_cases h1 : m = "User rejected request"
    · subst h1
      simp [onConnectError, hm, jsTruthy, jsTruthyStr]
    · by_cases h2 : m = ""
      · subst h2
        simp [onConnectError, hm, jsTruthy, jsTruthyStr, h1]
      · have e1 : (m == "User rejected request") = false := beq_eq_false_iff_ne.mpr h1
        have e2 : (m == "") = false := beq_eq_false_iff_ne.mpr h2
        simp [onConnectError, hm, jsTruthy, jsTruthyStr, bne, e1, e2, h1, h2]

/-- `find?` for key `k2` on a list filtered to drop key `k`: gone when
`k2 = k`, untouched otherwise. -/
theorem find?_filter_key (k k2 : String) (ps : List (String × String)) :
    (ps.filter (fun p => p.1 != k)).find? (fun p => p.1 == k2) =
      if k2 = k then none else ps.find? (fun p => p.1 == k2) := by
  induction ps with
  | nil => split <;> simp
  | cons p rest ih =>
    by_cases hp : p.1 = k
    · have hb : (p.1 != k) = false := by rw [hp]; exact bne_self_eq_false k
      by_cases hq : k2 = k
      · simp [List.filter, hb, ih, hq]
      · have hb2 : (p.1 == k2) = false := by
          rw [hp]
          exact beq_eq_false_iff_ne.mpr (fun hc => hq hc.symm)
        simp [List.filter, hb, ih, hq, List.find?, hb2]
    · have hb : (p.1 != k) = true := bne_iff_ne.mpr hp
      by_cases hq : p.1 = k2
      · have hb2 : (p.1 == k2) = true := beq_iff_eq.mpr hq
        have hq2 : ¬(k2 = k) := fun hc => hp (hq.trans hc)
        simp [List.filter, hb, List.find?, hb2, hq2]
      · have hb2 : (p.1 == k2) = false := beq_eq_false_iff_ne.mpr hq
        simp [List.filter, hb, List.find?, hb2, ih]

/-- Reading key `k2` after `searchParams.delete(k)`. -/
theorem getParam_delParam (u : Url) (k k2 : String) :
    (u.delParam k).getParam k2 = if k2 = k then none else u.getParam k2 := by
  show ((u.params.filter (fun p => p.1 != k)).find? (fun p => p.1 == k2)).map _ =
    if k2 = k then none else u.getParam k2
  rw [find?_filter_key]
  by_cases hq : k2 = k <;> simp [hq, Url.getParam]

/-- After `removeParams` deletes the three verification keys, none of them is
readable any more. -/
theorem getParam_delParams_verification (u : Url)
    (k : String) (hk : k = "state" ∨ k = "openfortEmailVerificationUI" ∨ k = "email") :
    (u.delParams ["state", "openfortEmailVerificationUI", "email"]).getParam k = none := by
  show (((u.delParam "state").delParam "openfortEmailVerificationUI").delParam "email").getParam k = none
  rcases hk with hk | hk | hk <;> subst hk <;>
    simp [getParam_delParam]

/-- `jsTruthy` on `null`. -/
theorem jsTruthy_none : jsTruthy none = false := rfl

/-- `jsTruthy` on a present string. -/
theorem jsTruthy_some (s : String) : jsTruthy (some s) = (s != "") := rfl

/-- C7: with the verification flag absent from the URL and no pending email in
local storage, the mount transitions to the login route and performs nothing
else: no SDK call, no storage change, no URL change. -/
theorem flow_no_flag_no_stored_email (inp : FlowInput)
    (hflag : jsTruthy ((flowUrl inp).getParam "openfortEmailVerificationUI") = false)
    (hstore : inp.emailInStorage = none) :
    runFlow inp = { events := [Ev.setRoute routes.EMAIL_LOGIN], loading := true,
                    shouldSend := none, response := none } ∧
    routeCalls (runFlow inp) = [routes.EMAIL_LOGIN] ∧
    sdkCalls (runFlow inp) = [] ∧
    removesStorage (runFlow inp) = false ∧
    historyWrites (runFlow inp) = [] := by
  have hrun : runFlow inp =
      { events := [Ev.setRoute routes.EMAIL_LOGIN], loading := true,
        shouldSend := none, response := none } := by
    simp [runFlow, mainEffect, hflag, hstore, jsTruthy_none]
  refine ⟨hrun, ?_, ?_, ?_, ?_⟩ <;> rw [hrun] <;> rfl

/-- C7 witness: a callback URL with no query and empty storage. -/
theorem flow_no_flag_no_stored_email_witness :
    runFlow { href := "https://app/callback", origin := "https://app",
              pathname := "/callback", emailInStorage := none,
              requestOutcome := Except.ok (), verifyOutcome := Except.ok () } =
      { events := [Ev.setRoute routes.EMAIL_LOGIN], loading := true,
        shouldSend := none, response := none } :=
  (flow_no_flag_no_stored_email _ (by decide) rfl).1

/-- C6: in the confirmation phase, a missing (or empty) `state` parameter
aborts with only the diagnostic `console.error` — no SDK call, no route
change, no URL or storage modification; a present `state` with a missing
`email` parameter transitions to the login route without calling the SDK. -/
theorem flow_confirm_missing_params (inp : FlowInput)
    (hflag : jsTruthy ((flowUrl inp).getParam "openfortEmailVerificationUI") = true) :
    (jsTruthy ((flowUrl inp).getParam "state") = false →
      runFlow inp = { events := [Ev.consoleErrored "No state found in URL"],
                      loading := true, shouldSend := none, response := none } ∧
      sdkCalls (runFlow inp) = [] ∧ routeCalls (runFlow inp) = [] ∧
      historyWrites (runFlow inp) = [] ∧ removesStorage (runFlow inp) = false) ∧
    (jsTruthy ((flowUrl inp).getParam "state") = true →
      jsTruthy ((flowUrl inp).getParam "email") = false →
      runFlow inp = { events := [Ev.setRoute routes.EMAIL_LOGIN],
                      loading := true, shouldSend := none, response := none } ∧
      sdkCalls (runFlow inp) = [] ∧ routeCalls (runFlow inp) = [routes.EMAIL_LOGIN]) := by
  constructor
  · intro hstate
    have hrun : runFlow inp =
        { events := [Ev.consoleErrored "No state found in URL"],
          loading := true, shouldSend := none, response := none } := by
      simp [runFlow, mainEffect, hflag, hstate, jsTruthy_none]
    refine ⟨hrun, ?_, ?_, ?_, ?_⟩ <;> rw [hrun] <;> rfl
  · intro hstate hemail
    have hrun : runFlow inp =
        { events := [Ev.setRoute routes.EMAIL_LOGIN],
          loading := true, shouldSend := none, response := none } := by
      simp [runFlow, mainEffect, hflag, hstate, hemail, jsTruthy_none]
    refine ⟨hrun, ?_, ?_⟩ <;> rw [hrun] <;> rfl

/-- Concrete confirmation-phase input whose URL carries the flag but no
`state` parameter. -/
def c6NoStateInput : FlowInput :=
  { href := "https://app/callback?openfortEmailVerificationUI=true",
    origin := "https://app", pathname := "/callback", emailInStorage := none,
    requestOutcome := Except.ok (), verifyOutcome := Except.ok () }

/-- Concrete confirmation-phase input whose URL carries the flag and a
`state` parameter but no `email` parameter. -/
def c6NoEmailInput : FlowInput :=
  { href := "https://app/callback?openfortEmailVerificationUI=true&state=XYZ",
    origin := "https://app", pathname := "/callback", emailInStorage := none,
    requestOutcome := Except.ok (), verifyOutcome := Except.ok () }

/-- C6 witness: one confirmation URL with no `state` parameter and one with a
`state` but no `email` parameter. -/
theorem flow_confirm_missing_params_witness :
    (runFlow c6NoStateInput =
      { events := [Ev.consoleErrored "No state found in URL"],
        loading := true, shouldSend := none, response := none } ∧
      sdkCalls (runFlow c6NoStateInput) = [] ∧
      routeCalls (runFlow c6NoStateInput) = [] ∧
      historyWrites (runFlow c6NoStateInput) = [] ∧
      removesStorage (runFlow c6NoStateInput) = false) ∧
    (runFlow c6NoEmailInput =
      { events := [Ev.setRoute routes.EMAIL_LOGIN],
        loading := true, shouldSend := none, response := none } ∧
      sdkCalls (runFlow c6NoEmailInput) = [] ∧
      routeCalls (runFlow c6NoEmailInput) = [routes.EMAIL_LOGIN]) :=
  ⟨(flow_confirm_missing_params c6NoStateInput (by decide)).1 (by decide),
   (flow_confirm_missing_params c6NoEmailInput (by decide)).2 (by decide) (by decide)⟩

/-- C2: in the confirmation phase (flag truthy, `state` and `email` present
and non-empty), a successful `verifyEmail` sets `{success := true}`, a
rejected one sets `{success := false}` with the non-empty generic message and
logs the underlying error; in both cases exactly one `verifyEmail` call is
made, the URL is rewritten in place to the current URL with the three
verification parameters stripped, and the component reaches the terminal
done screen. -/
theorem flow_confirm_phase (inp : FlowInput) (s e : String)
    (hflag : jsTruthy ((flowUrl inp).getParam "openfortEmailVerificationUI") = true)
    (hs : (flowUrl inp).getParam "state" = some s) (hsne : s ≠ "")
    (he : (flowUrl inp).getParam "email" = some e) (hene : e ≠ "") :
    (inp.verifyOutcome = Except.ok () →
      (runFlow inp).response = some { success := true, error := none }) ∧
    (∀ err, inp.verifyOutcome = Except.error err →
      (runFlow inp).response = some { success := false, error := some verifyErrorMsg } ∧
      verifyErrorMsg ≠ "" ∧
      Ev.logged "Error verifying email" (some err) ∈ (runFlow inp).events) ∧
    sdkCalls (runFlow inp) = [Ev.sdkVerifyEmail e s] ∧
    historyWrites (runFlow inp) =
      [((flowUrl inp).delParams ["state", "openfortEmailVerificationUI", "email"]).render] ∧
    ((flowUrl inp).delParams ["state", "openfortEmailVerificationUI", "email"]).getParam
      "state" = none ∧
    ((flowUrl inp).delParams ["state", "openfortEmailVerificationUI", "email"]).getParam
      "openfortEmailVerificationUI" = none ∧
    ((flowUrl inp).delParams ["state", "openfortEmailVerificationUI", "email"]).getParam
      "email" = none ∧
    (runFlow inp).loading = false ∧
    (∃ v, renderScreen inp (runFlow inp) = Screen.done v) := by
  have hb1 : (s != "") = true := bne_iff_ne.mpr hsne
  have hb2 : (e != "") = true := bne_iff_ne.mpr hene
  have hts : jsTruthy (some s) = true := by rw [jsTruthy_some, hb1]
  have hte : jsTruthy (some e) = true := by rw [jsTruthy_some, hb2]
  rcases hv : inp.verifyOutcome with err | u
  · -- verifyEmail rejected
    have hrun : runFlow inp =
        { events := [Ev.logged "EmailVerification" (some (s ++ " " ++ e)),
                     Ev.sdkVerifyEmail e s,
                     Ev.logged "Error verifying email" (some err),
                     Ev.historyReplaced
                       ((flowUrl inp).delParams
                         ["state", "openfortEmailVerificationUI", "email"]).render],
          loading := false, shouldSend := none,
          response := some { success := false, error := some verifyErrorMsg } } := by
      simp [runFlow, mainEffect, hflag, hts, hte, hs, he, hv, jsTruthy_none]
    refine ⟨?_, ?_, ?_, ?_, ?_, ?_, ?_, ?_, ?_⟩
    · intro hval
      simp [hv] at hval
    · intro err2 hval
      injection hval with hee
      subst hee
      refine ⟨?_, by decide, ?_⟩
      · simp [hrun]
      · simp [hrun]
    · rw [hrun]
      rfl
    · rw [hrun]
      rfl
    · exact getParam_delParams_verification _ _ (Or.inl rfl)
    · exact getParam_delParams_verification _ _ (Or.inr (Or.inl rfl))
    · exact getParam_delParams_verification _ _ (Or.inr (Or.inr rfl))
    · simp [hrun]
    · exact ⟨{ success := false, error := some verifyErrorMsg }, by rw [hrun]; rfl⟩
  · -- verifyEmail resolved
    obtain ⟨⟩ := u
    have hrun : runFlow inp =
        { events := [Ev.logged "EmailVerification" (some (s ++ " " ++ e)),
                     Ev.sdkVerifyEmail e s,
                     Ev.historyReplaced
                       ((flowUrl inp).delParams
                         ["state", "openfortEmailVerificationUI", "email"]).render],
          loading := false, shouldSend := none,
          response := some { success := true, error := none } } := by
      simp [runFlow, mainEffect, hflag, hts, hte, hs, he, hv, jsTruthy_none]
    refine ⟨?_, ?_, ?_, ?_, ?_, ?_, ?_, ?_, ?_⟩
    · intro _
      simp [hrun]
    · intro err2 hval
      simp [hv] at hval
    · rw [hrun]
      rfl
    · rw [hrun]
      rfl
    · exact getParam_delParams_verification _ _ (Or.inl rfl)
    · exact getParam_delParams_verification _ _ (Or.inr (Or.inl rfl))
    · exact getParam_delParams_verification _ _ (Or.inr (Or.inr rfl))
    · simp [hrun]
    · exact ⟨{ success := true, error := none }, by rw [hrun]; rfl⟩

/-- Concrete confirmation-phase input with flag, state token and encoded
email present. -/
def c2Input : FlowInput :=
  { href := "https://app/callback?openfortEmailVerificationUI=true&state=XYZ&email=a%40b.com",
    origin := "https://app", pathname := "/callback", emailInStorage := none,
    requestOutcome := Except.ok (), verifyOutcome := Except.ok () }

/-- C2 witness: the confirmation-phase theorem evaluated on the spec's example
URL (the email arriving percent-encoded and decoding to `a@b.com`). -/
theorem flow_confirm_phase_witness :
    (c2Input.verifyOutcome = Except.ok () →
      (runFlow c2Input).response = some { success := true, error := none }) ∧
    (∀ err, c2Input.verifyOutcome = Except.error err →
      (runFlow c2Input).response = some { success := false, error := some verifyErrorMsg } ∧
      verifyErrorMsg ≠ "" ∧
      Ev.logged "Error verifying email" (some err) ∈ (runFlow c2Input).events) ∧
    sdkCalls (runFlow c2Input) = [Ev.sdkVerifyEmail "a@b.com" "XYZ"] ∧
    historyWrites (runFlow c2Input) =
      [((flowUrl c2Input).delParams ["state", "openfortEmailVerificationUI", "email"]).render] ∧
    ((flowUrl c2Input).delParams ["state", "openfortEmailVerificationUI", "email"]).getParam
      "state" = none ∧
    ((flowUrl c2Input).delParams ["state", "openfortEmailVerificationUI", "email"]).getParam
      "openfortEmailVerificationUI" = none ∧
    ((flowUrl c2Input).delParams ["state", "openfortEmailVerificationUI", "email"]).getParam
      "email" = none ∧
    (runFlow c2Input).loading = false ∧
    (∃ v, renderScreen c2Input (runFlow c2Input) = Screen.done v) :=
  flow_confirm_phase c2Input "XYZ" "a@b.com" (by decide) (by decide) (by decide)
    (by decide) (by decide)

/-- Rendering of the redirect URL built by `sendEmailVerification`: the base
followed by the flag parameter and the form-urlencoded email. -/
theorem render_redirect (b e : String) :
    Url.render { base := b, params := [("openfortEmailVerificationUI", "true"), ("email", e)] } =
      b ++ "?openfortEmailVerificationUI=true&email=" ++ urlEncode e := by
  have h1 : urlEncode "openfortEmailVerificationUI" = "openfortEmailVerificationUI" := by decide
  have h2 : urlEncode "true" = "true" := by decide
  have h3 : urlEncode "email" = "email" := by decide
  have key : ("?" : String) ++ ("openfortEmailVerificationUI=true&" ++ ("email=" ++ urlEncode e)) =
      "?openfortEmailVerificationUI=true&email=" ++ urlEncode e := by
    rw [← String.append_assoc, ← String.append_assoc]
    rfl
  simp [Url.render, serializeParams, joinWith, h1, h2, h3, String.append_assoc]
  rw [key, ← String.append_assoc]

/-- Whether an event is the `requestEmailVerification` SDK call. -/
def isRequestEv : Ev → Bool
  | Ev.sdkRequestVerification _ _ => true
  | _ => false

/-- Whether an event is the removal of the persisted email key. -/
def isRemoveEv : Ev → Bool
  | Ev.removedStorageKey => true
  | _ => false

/-- `occursBefore l p q` holds when the first `p`-event of `l` is followed,
strictly later in the trace, by a `q`-event. -/
def occursBefore (l : List Ev) (p q : Ev → Bool) : Bool :=
  match l with
  | [] => false
  | x :: rest => if p x then rest.any q else occursBefore rest p q

/-- Concrete request-phase input: no verification flag in the URL and a
pending email in local storage. -/
def c5Input : FlowInput :=
  { href := "https://app/callback", origin := "https://app",
    pathname := "/callback", emailInStorage := some "a@b.com",
    requestOutcome := Except.ok (), verifyOutcome := Except.ok () }

/-- C5 counterexample: on the spec's own request-phase example the storage key
removal strictly precedes the `requestEmailVerification` call, so the claim
that the request is issued before the key is removed fails. -/
theorem flow_request_order_counterexample :
    (runFlow c5Input).events =
      [Ev.removedStorageKey,
       Ev.sdkRequestVerification "a@b.com"
         "https://app/callback?openfortEmailVerificationUI=true&email=a%40b.com"] ∧
    occursBefore (runFlow c5Input).events isRequestEv isRemoveEv = false ∧
    occursBefore (runFlow c5Input).events isRemoveEv isRequestEv = true := by
  decide

/-- C5 (amended): in the request phase with a pending email `e`, the flow
first clears the persisted email key and then calls
`requestEmailVerification` with `e` and a redirect URL equal to
origin+pathname plus the flag parameter and the form-urlencoded `e` (logging
any rejection after the call), ending on the check-your-email screen that
shows `e`. -/
theorem flow_request_phase (inp : FlowInput) (e : String)
    (hflag : jsTruthy ((flowUrl inp).getParam "openfortEmailVerificationUI") = false)
    (hstore : inp.emailInStorage = some e) (hene : e ≠ "") :
    (inp.requestOutcome = Except.ok () →
      (runFlow inp).events =
        [Ev.removedStorageKey,
         Ev.sdkRequestVerification e
           (inp.origin ++ inp.pathname ++ "?openfortEmailVerificationUI=true&email=" ++
             urlEncode e)]) ∧
    (∀ err, inp.requestOutcome = Except.error err →
      (runFlow inp).events =
        [Ev.removedStorageKey,
         Ev.sdkRequestVerification e
           (inp.origin ++ inp.pathname ++ "?openfortEmailVerificationUI=true&email=" ++
             urlEncode e),
         Ev.logged "Error requesting email verification" (some err)]) ∧
    removesStorage (runFlow inp) = true ∧
    renderScreen inp (runFlow inp) = Screen.awaitingUserCheck (some e) := by
  have hb : (e != "") = true := bne_iff_ne.mpr hene
  refine ⟨?_, ?_, ?_, ?_⟩
  · intro hr
    simp [runFlow, mainEffect, hflag, hstore, jsTruthy_some, hb, sendEmailVerification,
      jsTruthyStr, hr, render_redirect]
  · intro err hr
    simp [runFlow, mainEffect, hflag, hstore, jsTruthy_some, hb, sendEmailVerification,
      jsTruthyStr, hr, render_redirect]
  · rcases hr : inp.requestOutcome with err | u <;>
      simp [removesStorage, runFlow, mainEffect, hflag, hstore, jsTruthy_some, hb,
        sendEmailVerification, jsTruthyStr, hr]
  · rcases hr : inp.requestOutcome with err | u <;>
      simp [renderScreen, runFlow, mainEffect, hflag, hstore, jsTruthy_some, hb,
        sendEmailVerification, jsTruthyStr, hr]

/-- C5 witness: the amended request-phase theorem evaluated on the concrete
example input. -/
theorem flow_request_phase_witness :
    (c5Input.requestOutcome = Except.ok () →
      (runFlow c5Input).events =
        [Ev.removedStorageKey,
         Ev.sdkRequestVerification "a@b.com"
           (c5Input.origin ++ c5Input.pathname ++ "?openfortEmailVerificationUI=true&email=" ++
             urlEncode "a@b.com")]) ∧
    (∀ err, c5Input.requestOutcome = Except.error err →
      (runFlow c5Input).events =
        [Ev.removedStorageKey,
         Ev.sdkRequestVerification "a@b.com"
           (c5Input.origin ++ c5Input.pathname ++ "?openfortEmailVerificationUI=true&email=" ++
             urlEncode "a@b.com"),
         Ev.logged "Error requesting email verification" (some err)]) ∧
    removesStorage (runFlow c5Input) = true ∧
    renderScreen c5Input (runFlow c5Input) = Screen.awaitingUserCheck (some "a@b.com") :=
  flow_request_phase c5Input "a@b.com" (by decide) rfl (by decide)

/-- Input whose URL has the shape the claim calls malformed:
`?state=` is the first (and only) query introducer. -/
def c4ClaimMalformedInput : FlowInput :=
  { href := "https://app/callback?state=XYZ&email=a@b.com&openfortEmailVerificationUI=true",
    origin := "https://app", pathname := "/callback", emailInStorage := none,
    requestOutcome := Except.ok (), verifyOutcome := Except.ok () }

/-- The well-formed confirmation URL of the claim. -/
def c4WellformedInput : FlowInput :=
  { href := "https://app/callback?openfortEmailVerificationUI=true&state=XYZ&email=a%40b.com",
    origin := "https://app", pathname := "/callback", emailInStorage := none,
    requestOutcome := Except.ok (), verifyOutcome := Except.ok () }

/-- C4 counterexample: on a URL of the claim's malformed shape the
`?state=` → `&state=` rewrite removes the only `?`, so the flow sees no query
parameters at all (flag and state read as null) and exits to the login route,
while the well-formed URL reads all three parameters and runs the verify
phase — the two are not parsed identically. -/
theorem flow_normalization_counterexample :
    (flowUrl c4ClaimMalformedInput).getParam "openfortEmailVerificationUI" = none ∧
    (flowUrl c4WellformedInput).getParam "openfortEmailVerificationUI" = some "true" ∧
    (flowUrl c4ClaimMalformedInput).getParam "state" = none ∧
    (flowUrl c4WellformedInput).getParam "state" = some "XYZ" ∧
    routeCalls (runFlow c4ClaimMalformedInput) = [routes.EMAIL_LOGIN] ∧
    sdkCalls (runFlow c4ClaimMalformedInput) = [] ∧
    sdkCalls (runFlow c4WellformedInput) = [Ev.sdkVerifyEmail "a@b.com" "XYZ"] := by
  decide

/-- Input with the quirk the code actually normalises: the provider appended
`?state=XYZ` to a redirect URL that already carried a query, leaving two
`?` in the URL. -/
def c4QuirkInput : FlowInput :=
  { href := "https://app/callback?openfortEmailVerificationUI=true&email=a%40b.com?state=XYZ",
    origin := "https://app", pathname := "/callback", emailInStorage := none,
    requestOutcome := Except.ok (), verifyOutcome := Except.ok () }

/-- The well-formed equivalent of `c4QuirkInput`. -/
def c4NormalInput : FlowInput :=
  { href := "https://app/callback?openfortEmailVerificationUI=true&email=a%40b.com&state=XYZ",
    origin := "https://app", pathname := "/callback", emailInStorage := none,
    requestOutcome := Except.ok (), verifyOutcome := Except.ok () }

/-- C4 (amended): the URL actually repaired by the normalisation is the one
where the provider appended `?state=XYZ` after an existing query
(`...?openfortEmailVerificationUI=true&email=a%40b.com?state=XYZ`): it parses
identically to its well-formed `&state=XYZ` equivalent — same three parameter
values, same phase, same whole run — whereas a URL of the claim's shape
(`?state=` first) parses with no query parameters at all. -/
theorem flow_normalization_amended :
    flowUrl c4QuirkInput = flowUrl c4NormalInput ∧
    (flowUrl c4QuirkInput).getParam "openfortEmailVerificationUI" = some "true" ∧
    (flowUrl c4QuirkInput).getParam "state" = some "XYZ" ∧
    (flowUrl c4QuirkInput).getParam "email" = some "a@b.com" ∧
    runFlow c4QuirkInput = runFlow c4NormalInput ∧
    sdkCalls (runFlow c4QuirkInput) = [Ev.sdkVerifyEmail "a@b.com" "XYZ"] := by
  decide

/-- Reading key `k2` after the JS assignment `obj[k] = v`. -/
theorem jsLookup_jsSet (m : List (Nat × List Transport)) (k k2 : Nat) (v : List Transport) :
    jsLookup (jsSet m k v) k2 = if k2 = k then some v else jsLookup m k2 := by
  induction m with
  | nil =>
    by_cases h : k2 = k
    · subst h
      simp [jsSet, jsLookup]
    · simp [jsSet, jsLookup, h, fun hc => h (Eq.symm hc)]
      exact fun hc => h hc.symm
  | cons p rest ih =>
    by_cases hp : p.1 = k
    · by_cases hq : k2 = k
      · subst hq
        simp [jsSet, hp, jsLookup]
      · have hp2 : p.1 ≠ k2 := by rw [hp]; exact fun hc => hq hc.symm
        have hk : ¬(k = k2) := fun hc => hq hc.symm
        simp [jsSet, hp, jsLookup, hq, hp2, hk]
    · by_cases hq : p.1 = k2
      · have hq2 : ¬(k2 = k) := fun hc => hp (hq.trans hc)
        simp [jsSet, hp, jsLookup, hq, hq2]
      · simp [jsSet, hp, jsLookup, hq, ih]

/-- Reading a chain id out of the fold that `getDefaultTransports` performs. -/
theorem jsLookup_transportsFold (cfgs : List ChainConfig) (aId iId : Option String)
    (chains : List Nat) (m : List (Nat × List Transport)) (cid : Nat) :
    jsLookup (chains.foldl (fun acc c => jsSet acc c (transportUrlsFor cfgs aId iId c)) m) cid =
      if cid ∈ chains then some (transportUrlsFor cfgs aId iId cid) else jsLookup m cid := by
  induction chains generalizing m with
  | nil => simp
  | cons c rest ih =>
    simp only [List.foldl_cons]
    rw [ih]
    by_cases hc : cid ∈ rest
    · simp [hc, List.mem_cons]
    · by_cases he : cid = c
      · subst he
        simp [hc, jsLookup_jsSet]
      · simp [hc, he, jsLookup_jsSet, List.mem_cons]

/-- The transport map contains every requested chain, bound to its per-chain
fallback list. -/
theorem jsLookup_getDefaultTransports (cfgs : List ChainConfig) (chains : List Nat)
    (aId iId : Option String) (cid : Nat) (hc : cid ∈ chains) :
    jsLookup (getDefaultTransports cfgs chains aId iId) cid =
      some (transportUrlsFor cfgs aId iId cid) := by
  rw [getDefaultTransports, jsLookup_transportsFold]
  simp [hc]

/-- `createTransport` on a chain missing from the table is the public
transport, whatever the provider and key. -/
theorem createTransport_absent (cfgs : List ChainConfig) (cid : Nat) (prov : Provider)
    (key : String) (h : cfgs.find? (fun c => c.id == cid) = none) :
    createTransport cfgs cid prov key = Transport.publicHttp := by
  simp [createTransport, h]

/-- C8 counterexample: with an empty table, one chain and an Alchemy key, the
chain's fallback list is two copies of the public transport — not the
single-element public-only list the claim's "only the public transport"
describes, and its first element is not an authenticated transport. -/
theorem transports_absent_chain_counterexample :
    jsLookup (getDefaultTransports [] [1] (some "k") none) 1 =
      some [Transport.publicHttp, Transport.publicHttp] ∧
    some [Transport.publicHttp, Transport.publicHttp] ≠
      some [Transport.publicHttp] := by
  decide

/-- C8 (amended): every requested chain is mapped to a fallback list whose
final element is the public transport; the provider entries come first in the
fixed order Alchemy then Infura, each present exactly when its key is truthy:
with no keys the list is exactly the public transport, with a single key it
is exactly that provider's transport followed by the public one, and with
both keys it is Alchemy, Infura, public; for a chain absent from the table
every element of the list (one per supplied key, plus the final fallback) is
the public transport, so no authenticated transport appears. -/
theorem transports_structure (cfgs : List ChainConfig) (chains : List Nat)
    (aId iId : Option String) (cid : Nat) (hc : cid ∈ chains) :
    ∃ urls, jsLookup (getDefaultTransports cfgs chains aId iId) cid = some urls ∧
      urls.getLast? = some Transport.publicHttp ∧
      (cfgs.find? (fun c => c.id == cid) = none → ∀ t ∈ urls, t = Transport.publicHttp) ∧
      (jsTruthy aId = false → jsTruthy iId = false → urls = [Transport.publicHttp]) ∧
      (∀ ka, aId = some ka → ka ≠ "" →
        urls.head? = some (createTransport cfgs cid Provider.alchemy ka)) ∧
      (∀ ka, aId = some ka → ka ≠ "" → jsTruthy iId = false →
        urls = [createTransport cfgs cid Provider.alchemy ka, Transport.publicHttp]) ∧
      (∀ ki, jsTruthy aId = false → iId = some ki → ki ≠ "" →
        urls = [createTransport cfgs cid Provider.infura ki, Transport.publicHttp]) ∧
      (∀ ka ki, aId = some ka → ka ≠ "" → iId = some ki → ki ≠ "" →
        urls = [createTransport cfgs cid Provider.alchemy ka,
                createTransport cfgs cid Provider.infura ki, Transport.publicHttp]) := by
  refine ⟨transportUrlsFor cfgs aId iId cid,
    jsLookup_getDefaultTransports cfgs chains aId iId cid hc, ?_, ?_, ?_, ?_, ?_, ?_, ?_⟩
  · cases ha : jsTruthy aId <;> cases hi : jsTruthy iId <;>
      simp [transportUrlsFor, ha, hi, List.getLast?]
  · intro habs t ht
    have ha2 : createTransport cfgs cid Provider.alchemy (aId.getD "") = Transport.publicHttp :=
      createTransport_absent cfgs cid Provider.alchemy (aId.getD "") habs
    have hi2 : createTransport cfgs cid Provider.infura (iId.getD "") = Transport.publicHttp :=
      createTransport_absent cfgs cid Provider.infura (iId.getD "") habs
    cases ha : jsTruthy aId <;> cases hi : jsTruthy iId <;>
      simp [transportUrlsFor, ha, hi, ha2, hi2] at ht <;>
      simp [ht]
  · intro ha hi
    simp [transportUrlsFor, ha, hi]
  · intro ka hka hkane
    have ha : jsTruthy aId = true := by
      rw [hka, jsTruthy_some]
      exact bne_iff_ne.mpr hkane
    have ha2 : jsTruthy (some ka) = true := by
      rw [jsTruthy_some]
      exact bne_iff_ne.mpr hkane
    cases hi : jsTruthy iId <;> simp [transportUrlsFor, ha, hi, hka, ha2]
  · intro ka hka hkane hi
    have ha2 : jsTruthy (some ka) = true := by
      rw [jsTruthy_some]
      exact bne_iff_ne.mpr hkane
    simp [transportUrlsFor, hka, ha2, hi]
  · intro ki ha hki hkine
    have hi2 : jsTruthy (some ki) = true := by
      rw [jsTruthy_some]
      exact bne_iff_ne.mpr hkine
    simp [transportUrlsFor, ha, hki, hi2]
  · intro ka ki hka hkane hki hkine
    have ha2 : jsTruthy (some ka) = true := by
      rw [jsTruthy_some]
      exact bne_iff_ne.mpr hkane
    have hi2 : jsTruthy (some ki) = true := by
      rw [jsTruthy_some]
      exact bne_iff_ne.mpr hkine
    simp [transportUrlsFor, hka, hki, ha2, hi2]

/-- C8 witness: the amended transport-shape theorem evaluated with an empty
table, the single chain 5 and only an Alchemy key supplied. -/
theorem transports_structure_witness :
    ∃ urls, jsLookup (getDefaultTransports [] [5] (some "a") none) 5 = some urls ∧
      urls.getLast? = some Transport.publicHttp ∧
      (([] : List ChainConfig).find? (fun c => c.id == 5) = none →
        ∀ t ∈ urls, t = Transport.publicHttp) ∧
      (jsTruthy (some "a") = false → jsTruthy none = false →
        urls = [Transport.publicHttp]) ∧
      (∀ ka, (some "a" : Option String) = some ka → ka ≠ "" →
        urls.head? = some (createTransport [] 5 Provider.alchemy ka)) ∧
      (∀ ka, (some "a" : Option String) = some ka → ka ≠ "" →
        jsTruthy (none : Option String) = false →
        urls = [createTransport [] 5 Provider.alchemy ka, Transport.publicHttp]) ∧
      (∀ ki, jsTruthy (some "a") = false → (none : Option String) = some ki → ki ≠ "" →
        urls = [createTransport [] 5 Provider.infura ki, Transport.publicHttp]) ∧
      (∀ ka ki, (some "a" : Option String) = some ka → ka ≠ "" →
        (none : Option String) = some ki → ki ≠ "" →
        urls = [createTransport [] 5 Provider.alchemy ka,
                createTransport [] 5 Provider.infura ki, Transport.publicHttp]) :=
  transports_structure [] [5] (some "a") none 5 (by decide)
